import Mathlib

/-!
Shallow embedding of the GITEX2 event-registration server.

The repository contains two alternate implementations of the same CRUD
service: a file-backed server (`src/unnamed/part_000`, in-memory lists
synchronized to JSON files) and a MongoDB-backed server (`src/server.js`),
plus router fragments (`src/routes/registration.js`, `src/routes/feedback.js`).
Pure request-handling logic is translated here directly from the JavaScript
source; I/O (file writes, database round trips) is modelled by explicit
state passing, and a fallible database read is modelled as an
`Except Unit` value (`.error` = the awaited query threw).
-/

/-- Model of a JavaScript value as it can appear in a JSON request body
field (restricted to the shapes the handlers actually inspect). -/
inductive JSVal where
  | undefined
  | null
  | bool (b : Bool)
  | num (n : Int)
  | str (s : String)
deriving DecidableEq, Repr

/-- JavaScript truthiness for `JSVal` (`undefined`, `null`, `false`, `0`,
and the empty string are falsy). -/
def JSVal.truthy : JSVal → Bool
  | .undefined => false
  | .null => false
  | .bool b => b
  | .num n => n != 0
  | .str s => s != ""

/-- Discriminator: is this value a JavaScript boolean? -/
def JSVal.isBool : JSVal → Bool
  | .bool _ => true
  | _ => false

/-- Whitespace as JavaScript `trim` sees it (space, tab, carriage
return, line feed — the characters occurring in this development). -/
def jsWhitespace (c : Char) : Bool :=
  c == ' ' || c == '\t' || c == '\r' || c == '\n'

/-- Model of JavaScript `String.prototype.trim`: drop leading and
trailing whitespace. -/
def jsTrim (s : String) : String :=
  ⟨(((s.toList.dropWhile jsWhitespace).reverse).dropWhile jsWhitespace).reverse⟩

/-- ASCII lower-casing of a character, as JavaScript `toLowerCase` acts
on the ASCII range. -/
def jsCharLower (c : Char) : Char :=
  if 65 ≤ c.toNat && c.toNat ≤ 90 then Char.ofNat (c.toNat + 32) else c

/-- Model of JavaScript `String.prototype.toLowerCase` (ASCII). -/
def jsToLower (s : String) : String :=
  ⟨s.toList.map jsCharLower⟩

/-- Registration request body (`req.body` of `POST /api/register`).
String-typed fields are `none` when absent from the JSON body. -/
structure RegPayload where
  firstName : Option String
  lastName : Option String
  email : Option String
  phone : Option String
  location : Option String
  gender : Option String
  channel : Option String
  interests : Option (List String)
  otherInterest : Option String
  consent : JSVal
deriving DecidableEq, Repr

/-- JavaScript falsiness of an optional string field: absent (`undefined`)
or the empty string. -/
def strFieldFalsy : Option String → Bool
  | none => true
  | some s => s == ""

/-- The `required` array of `src/unnamed/part_000` line 59 and
`src/server.js` line 80. -/
def requiredFields : List String :=
  ["firstName", "lastName", "email", "phone", "location", "gender", "channel"]

/-- Dynamic field access `req.body[field]` for the seven required fields. -/
def RegPayload.field (p : RegPayload) : String → Option String
  | "firstName" => p.firstName
  | "lastName" => p.lastName
  | "email" => p.email
  | "phone" => p.phone
  | "location" => p.location
  | "gender" => p.gender
  | "channel" => p.channel
  | _ => none

/-- `required.filter(field => !req.body[field])` (both servers). -/
def missingFields (p : RegPayload) : List String :=
  requiredFields.filter (fun f => strFieldFalsy (p.field f))

/-- `req.body.interests && req.body.interests.length > 2` (an array is
always truthy in JavaScript, so the first conjunct is a presence check). -/
def interestsOverLimit (p : RegPayload) : Bool :=
  match p.interests with
  | some l => decide (l.length > 2)
  | none => false

/-- Stored registration record of the file-backed server
(`src/unnamed/part_000` lines 87-100). `id` and `timestamp` both come
from the clock (`Date.now()` / `new Date().toISOString()`), modelled by
a single `Nat` instant. -/
structure Registration where
  id : Nat
  firstName : String
  lastName : String
  email : String
  phone : String
  location : String
  gender : String
  channel : String
  interests : List String
  otherInterest : String
  consent : JSVal
  timestamp : Nat
deriving DecidableEq, Repr

/-- The registration object literal of `src/unnamed/part_000` lines 87-100:
required fields are copied raw, `interests` defaults to `[]`,
`otherInterest` to `''` (`x || ''`), and `consent` is `req.body.consent || false`. -/
def mkRegistration (p : RegPayload) (now : Nat) : Registration where
  id := now
  firstName := p.firstName.getD ""
  lastName := p.lastName.getD ""
  email := p.email.getD ""
  phone := p.phone.getD ""
  location := p.location.getD ""
  gender := p.gender.getD ""
  channel := p.channel.getD ""
  interests := p.interests.getD []
  otherInterest := (match p.otherInterest with
    | some s => if s != "" then s else ""
    | none => "")
  consent := if p.consent.truthy then p.consent else .bool false
  timestamp := now

/-- Stored feedback record of the file-backed server
(`src/unnamed/part_000` lines 146-152). -/
structure Feedback where
  id : Nat
  feedback1 : String
  feedback2 : String
  rating : Option Int
  timestamp : Nat
deriving DecidableEq, Repr

/-- Feedback request body (`req.body` of `POST /api/feedback`).
`rating`, when numeric, is modelled as an integer. -/
structure FbPayload where
  feedback1 : Option String
  feedback2 : Option String
  rating : Option Int
deriving DecidableEq, Repr

/-- The feedback object literal of `src/unnamed/part_000` lines 146-152:
`feedback1 ? feedback1.trim() : ''`, likewise `feedback2`, and
`rating ? parseInt(rating) : null` (`0` is falsy, so a zero rating is
stored as `null`). -/
def mkFeedback (p : FbPayload) (now : Nat) : Feedback where
  id := now
  feedback1 := (match p.feedback1 with
    | some s => if s != "" then jsTrim s else ""
    | none => "")
  feedback2 := (match p.feedback2 with
    | some s => if s != "" then jsTrim s else ""
    | none => "")
  rating := (match p.rating with
    | some n => if n != 0 then some n else none
    | none => none)
  timestamp := now

/-- In-memory state of the file-backed server: the two module-level
arrays `registrations` and `feedbacks` (`src/unnamed/part_000` lines 15-16).
Each mutation is mirrored to a JSON file; durability is outside the model. -/
structure ServerState where
  registrations : List Registration
  feedbacks : List Feedback
deriving DecidableEq, Repr

/-- Outcome of `POST /api/register` on the file-backed server. -/
inductive RegResult where
  | success (id : Nat)
  | missingRequired (fields : List String)
  | tooManyInterests
  | emailAlreadyRegistered
deriving DecidableEq, Repr

/-- `POST /api/register` of the file-backed server
(`src/unnamed/part_000` lines 54-121): missing-field check, interests
cardinality check, duplicate-email rejection
(`registrations.find(reg => reg.email === req.body.email)` answered with
status 400 `Email already registered`), then append and persist. -/
def handleRegisterFile (st : ServerState) (p : RegPayload) (now : Nat) :
    RegResult × ServerState :=
  if 0 < (missingFields p).length then
    (.missingRequired (missingFields p), st)
  else if interestsOverLimit p then
    (.tooManyInterests, st)
  else if st.registrations.any (fun reg => reg.email == p.email.getD "") then
    (.emailAlreadyRegistered, st)
  else
    (.success now,
      { st with registrations := st.registrations ++ [mkRegistration p now] })

/-- Outcome of `POST /api/feedback` (identical result shapes in both servers). -/
inductive FbResult where
  | success
  | emptyFeedback
  | ratingOutOfRange
deriving DecidableEq, Repr

/-- Rating guard shared by both servers:
`rating && (rating < 1 || rating > 5)` — truthy (present and non-zero)
and outside the range. -/
def ratingRejected (r : Option Int) : Bool :=
  match r with
  | some n => (n != 0) && (decide (n < 1) || decide (n > 5))
  | none => false

/-- `POST /api/feedback` of the file-backed server
(`src/unnamed/part_000` lines 124-171): `if (!feedback1 && !feedback2)`
rejects with `EmptyFeedback`; then the rating guard; then append. -/
def handleFeedbackFile (st : ServerState) (p : FbPayload) (now : Nat) :
    FbResult × ServerState :=
  if strFieldFalsy p.feedback1 && strFieldFalsy p.feedback2 then
    (.emptyFeedback, st)
  else if ratingRejected p.rating then
    (.ratingOutOfRange, st)
  else
    (.success, { st with feedbacks := st.feedbacks ++ [mkFeedback p now] })

/-- Character-list version of `startsWith`: does the second list begin
with the first? -/
def startsL : List Char → List Char → Bool
  | [], _ => true
  | _ :: _, [] => false
  | a :: as, b :: bs => a == b && startsL as bs

/-- Character-list substring test; mirrors JavaScript
`String.prototype.includes` (the empty needle matches everywhere). -/
def containsL (needle : List Char) : List Char → Bool
  | [] => needle.isEmpty
  | c :: t => startsL needle (c :: t) || containsL needle t

/-- `hay.includes(needle)` on strings. -/
def strIncludes (hay needle : String) : Bool :=
  containsL needle.toList hay.toList

/-- The search predicate of `src/unnamed/part_000` lines 198-203: the
(already lower-cased, trimmed) needle must occur in the lower-cased
`firstName`, `lastName`, `email`, or `location`. -/
def regMatchesSearch (needle : String) (reg : Registration) : Bool :=
  strIncludes (jsToLower reg.firstName) needle ||
  strIncludes (jsToLower reg.lastName) needle ||
  strIncludes (jsToLower reg.email) needle ||
  strIncludes (jsToLower reg.location) needle

/-- Sort comparator of `src/unnamed/part_000` line 207:
`(a, b) => new Date(b.timestamp) - new Date(a.timestamp)` orders
newest-first; JavaScript `Array.prototype.sort` is stable, modelled by a
stable merge sort. -/
def newestFirstReg (a b : Registration) : Bool :=
  decide (b.timestamp ≤ a.timestamp)

/-- `GET /api/admin/registrations` of the file-backed server
(`src/unnamed/part_000` lines 191-215): when the `search` query parameter
is present, non-empty and non-blank (`search && search.trim().length > 0`),
filter by `search.toLowerCase().trim()`; always sort newest-first. -/
def listRegistrationsFile (regs : List Registration) :
    Option String → List Registration
  | some s =>
    (if s != "" && decide (0 < (jsTrim s).length) then
        regs.filter (regMatchesSearch (jsTrim (jsToLower s)))
      else regs).mergeSort newestFirstReg
  | none => regs.mergeSort newestFirstReg

/-- Claim-side search predicate, written from the claim's words: the
lower-cased search term (no trimming) is a substring of `firstName`,
`lastName`, `email`, or `location`, compared case-insensitively. -/
def specSearchMatches (term : String) (reg : Registration) : Bool :=
  strIncludes (jsToLower reg.firstName) (jsToLower term) ||
  strIncludes (jsToLower reg.lastName) (jsToLower term) ||
  strIncludes (jsToLower reg.email) (jsToLower term) ||
  strIncludes (jsToLower reg.location) (jsToLower term)

/-- Amended claim-side search predicate: the lower-cased, trimmed search
term is a substring of one of the four lower-cased fields. -/
def specSearchMatchesT (term : String) (reg : Registration) : Bool :=
  strIncludes (jsToLower reg.firstName) (jsTrim (jsToLower term)) ||
  strIncludes (jsToLower reg.lastName) (jsTrim (jsToLower term)) ||
  strIncludes (jsToLower reg.email) (jsTrim (jsToLower term)) ||
  strIncludes (jsToLower reg.location) (jsTrim (jsToLower term))

/-- Admin projection of a feedback record in the file-backed server
(`src/unnamed/part_000` lines 223-229): the record's own fields (object
spread) plus the redacted `name` and the combined `text`. -/
structure FeedbackView where
  id : Nat
  feedback1 : String
  feedback2 : String
  rating : Option Int
  timestamp : Nat
  name : String
  text : String
deriving DecidableEq, Repr

/-- Combined display text (`src/unnamed/part_000` lines 226-228):
`[feedback1, feedback2].filter(text => text && text.trim()).join(' | ')`. -/
def feedbackDisplayText (f : Feedback) : String :=
  String.intercalate " | "
    (([f.feedback1, f.feedback2]).filter (fun t => t != "" && jsTrim t != ""))

/-- Claim-side combined text: join of the non-blank parts of `feedback1`
and `feedback2`. -/
def specCombinedText (f : Feedback) : String :=
  String.intercalate " | "
    (([f.feedback1, f.feedback2]).filter (fun t => jsTrim t != ""))

/-- Per-record mapping of `src/unnamed/part_000` lines 223-229. -/
def formatFeedbackFile (f : Feedback) : FeedbackView where
  id := f.id
  feedback1 := f.feedback1
  feedback2 := f.feedback2
  rating := f.rating
  timestamp := f.timestamp
  name := "Anonymous User"
  text := feedbackDisplayText f

/-- Sort comparator for feedbacks, as for registrations
(`src/unnamed/part_000` line 222). -/
def newestFirstFb (a b : Feedback) : Bool :=
  decide (b.timestamp ≤ a.timestamp)

/-- `GET /api/admin/feedbacks` of the file-backed server
(`src/unnamed/part_000` lines 218-237): sort newest-first, then project
each record through `formatFeedbackFile`. -/
def listFeedbacksFile (fbs : List Feedback) : List FeedbackView :=
  (fbs.mergeSort newestFirstFb).map formatFeedbackFile

/-- Mongoose cast of a request value into a schema `Boolean` field with
`default: false` (`src/server.js` line 53): an absent (`undefined`) or
`null` value takes the default; `true`/`false`, `0`/`1` and the strings
`'true'`/`'false'`/`'0'`/`'1'` cast; anything else raises a `CastError`,
modelled as `none` (the route answers 500 in that case). -/
def mongooseBoolField : JSVal → Option Bool
  | .undefined => some false
  | .null => some false
  | .bool b => some b
  | .num 0 => some false
  | .num 1 => some true
  | .str "true" => some true
  | .str "false" => some false
  | .str "0" => some false
  | .str "1" => some true
  | _ => none

/-- Stored registration document of the MongoDB-backed server
(`src/server.js` lines 36-55). The schema trims `firstName`, `lastName`
and `email` and lower-cases `email`; `_id` is database-generated,
modelled as a `Nat` parameter. -/
structure MongoReg where
  id : Nat
  firstName : String
  lastName : String
  email : String
  phone : Option String
  location : Option String
  gender : Option String
  channel : Option String
  interests : List String
  otherInterest : Option String
  consent : Bool
  timestamp : Nat
deriving DecidableEq, Repr

/-- Document built by `Registration.create(req.body)` in `src/server.js`
line 104, after the schema's casts (trim on the three trimmed fields,
lower-casing of `email`, `interests` defaulting to `[]`), with the cast
consent value passed in. -/
def mkMongoReg (p : RegPayload) (oid now : Nat) (c : Bool) : MongoReg where
  id := oid
  firstName := jsTrim (p.firstName.getD "")
  lastName := jsTrim (p.lastName.getD "")
  email := jsToLower (jsTrim (p.email.getD ""))
  phone := p.phone
  location := p.location
  gender := p.gender
  channel := p.channel
  interests := p.interests.getD []
  otherInterest := p.otherInterest
  consent := c
  timestamp := now

/-- Outcome of `POST /api/register` on the MongoDB-backed server.
`serverError` is the catch-all 500 branch (here reachable through a
mongoose `CastError` on `consent`). -/
inductive MongoRegResult where
  | success (id : Nat)
  | missingRequired (fields : List String)
  | tooManyInterests
  | serverError
deriving DecidableEq, Repr

/-- `POST /api/register` of the MongoDB-backed server (`src/server.js`
lines 76-119): the same missing-field and interests checks as the
file-backed server; the duplicate-email lookup (lines 97-102) only logs a
warning and never changes the outcome, so it does not appear in the
result; then `Registration.create` appends a document. -/
def handleRegisterMongo (coll : List MongoReg) (p : RegPayload)
    (oid now : Nat) : MongoRegResult × List MongoReg :=
  if 0 < (missingFields p).length then
    (.missingRequired (missingFields p), coll)
  else if interestsOverLimit p then
    (.tooManyInterests, coll)
  else
    match mongooseBoolField p.consent with
    | none => (.serverError, coll)
    | some c => (.success oid, coll ++ [mkMongoReg p oid now c])

/-- Stored feedback document of the MongoDB-backed server
(`src/server.js` lines 57-63, created at lines 142-146): fields absent
from the request stay absent on the document. -/
structure MongoFeedback where
  id : Nat
  feedback1 : Option String
  feedback2 : Option String
  rating : Option Int
  timestamp : Nat
deriving DecidableEq, Repr

/-- `POST /api/feedback` of the MongoDB-backed server (`src/server.js`
lines 122-161): the same `!feedback1 && !feedback2` and rating guards as
the file-backed server, then `Feedback.create({feedback1, feedback2,
rating: rating ? parseInt(rating) : null})` (no trimming). -/
def handleFeedbackMongo (coll : List MongoFeedback) (p : FbPayload)
    (oid now : Nat) : FbResult × List MongoFeedback :=
  if strFieldFalsy p.feedback1 && strFieldFalsy p.feedback2 then
    (.emptyFeedback, coll)
  else if ratingRejected p.rating then
    (.ratingOutOfRange, coll)
  else
    (.success, coll ++ [{ id := oid
                          feedback1 := p.feedback1
                          feedback2 := p.feedback2
                          rating := (match p.rating with
                            | some n => if n != 0 then some n else none
                            | none => none)
                          timestamp := now }])

/-- JavaScript `a || b` on an optional string: `a` when present and
non-empty, else `b`. -/
def jsStrOr (v : Option String) (d : String) : String :=
  match v with
  | some s => if s != "" then s else d
  | none => d

/-- Admin projection of a feedback document in the MongoDB-backed server
(`src/server.js` lines 227-233): fixed `name`, and
`text: fb.feedback1 || fb.feedback2 || 'No feedback text'`. The original
`feedback1`/`feedback2` fields are not part of the view. -/
structure MongoFeedbackView where
  name : String
  text : String
  rating : Option Int
  timestamp : Nat
  id : Nat
deriving DecidableEq, Repr

/-- Per-document mapping of `src/server.js` lines 227-233. -/
def formatFeedbackMongo (f : MongoFeedback) : MongoFeedbackView where
  name := "Customer Feedback"
  text := jsStrOr f.feedback1 (jsStrOr f.feedback2 "No feedback text")
  rating := f.rating
  timestamp := f.timestamp
  id := f.id

/-- Claim-side combined text for a MongoDB feedback document: join of
the non-blank parts of `feedback1` and `feedback2`. -/
def specCombinedTextMongo (f : MongoFeedback) : String :=
  String.intercalate " | "
    (([f.feedback1.getD "", f.feedback2.getD ""]).filter (fun t => jsTrim t != ""))

/-- `GET /api/admin/registrations` of the MongoDB-backed server
(`src/server.js` lines 188-217). The filtering, newest-first sort and
200-document cap are executed inside MongoDB by the awaited
`Registration.find(filter).sort({timestamp:-1}).limit(200).lean()` call;
the handler's own logic is only: answer 200 with the query result, or —
when the await throws (storage unavailable) — answer **500** with an
empty array (`res.status(500).json([])`, line 215). The awaited call is
modelled as an `Except` value. -/
def adminRegistrationsMongo (queryResult : Except Unit (List MongoReg)) :
    Nat × List MongoReg :=
  match queryResult with
  | .ok rs => (200, rs)
  | .error _ => (500, [])

/-- `GET /api/admin/feedbacks` of the MongoDB-backed server
(`src/server.js` lines 220-242): map the awaited, database-sorted query
result through `formatFeedbackMongo` and answer 200; when the await
throws, answer **500** with an empty array (line 240). -/
def adminFeedbacksMongo (queryResult : Except Unit (List MongoFeedback)) :
    Nat × List MongoFeedbackView :=
  match queryResult with
  | .ok fbs => (200, fbs.map formatFeedbackMongo)
  | .error _ => (500, [])

/-- Consent coercion of `src/routes/registration.js` lines 10-14:
`req.body.consent === true || req.body.consent === 'true'`. -/
def consentRoutes (c : JSVal) : Bool :=
  c == .bool true || c == .str "true"

/-- Response of `POST /api/admin/login`. -/
structure LoginResponse where
  status : Nat
  success : Bool
  token : Option String
deriving DecidableEq, Repr

/-- Admin login of the two full servers (`src/unnamed/part_000` lines
251-274 and `src/server.js` lines 269-285): the fixed pair
`admin@mtn.ng` / `1234` gets 200 with the static token `demo-token`;
anything else gets 401 with no token. -/
def adminLoginMain (username password : String) : LoginResponse :=
  if username == "admin@mtn.ng" && password == "1234" then
    { status := 200, success := true, token := some "demo-token" }
  else
    { status := 401, success := false, token := none }

/-- Admin login of the router fragment (`src/routes/feedback.js` lines
32-40): same credential check, but the success body is only
`{success, message}` — no token field. -/
def adminLoginRouter (username password : String) : LoginResponse :=
  if username == "admin@mtn.ng" && password == "1234" then
    { status := 200, success := true, token := none }
  else
    { status := 401, success := false, token := none }

/-! Concrete inputs used by counterexamples and witnesses. -/

/-- A fully valid registration payload. -/
def pDup : RegPayload where
  firstName := some "Ada"
  lastName := some "Lovelace"
  email := some "ada@x.com"
  phone := some "0801"
  location := some "Lagos"
  gender := some "Female"
  channel := some "Web"
  interests := none
  otherInterest := none
  consent := .bool true

/-- The record the file-backed server stores for `pDup` at instant 1. -/
def regAda : Registration := mkRegistration pDup 1

/-- A valid payload whose `consent` is the string `"false"`. -/
def pConsentStr : RegPayload := { pDup with consent := .str "false" }

/-- A payload with every required field absent. -/
def pAllMissing : RegPayload where
  firstName := none
  lastName := none
  email := none
  phone := none
  location := none
  gender := none
  channel := none
  interests := none
  otherInterest := none
  consent := .undefined

/-- Feedback payload with text and rating `0`. -/
def fbRatingZero : FbPayload where
  feedback1 := some "Great event"
  feedback2 := none
  rating := some 0

/-- Feedback payload whose only text is whitespace. -/
def fbBlankOnly : FbPayload where
  feedback1 := some "   "
  feedback2 := none
  rating := none

/-- A MongoDB feedback document with both text fields non-empty. -/
def mfBoth : MongoFeedback := ⟨1, some "Great event", some "Bad wifi", some 5, 10⟩

/-- Like `mfBoth` but with a different `feedback2`. -/
def mfBoth2 : MongoFeedback := ⟨1, some "Great event", some "Other", some 5, 10⟩

/-- State after registering `pDup` on an empty file-backed server. -/
def stAfter : ServerState := ⟨[mkRegistration pDup 1], []⟩

/-!  Claim theorems. -/

/-- C1 counterexample: on the file-backed server
(`src/unnamed/part_000` lines 77-84) the claim fails — the first
submission of the valid payload `pDup` succeeds, but resubmitting the
same payload (same email, still passing validation) is rejected with
`Email already registered`, no second record is created, and
`listRegistrations` afterwards shows only the first record, contradicting
"both submissions succeed … and both records subsequently appear". -/
theorem C1_counterexample :
    (handleRegisterFile ⟨[], []⟩ pDup 1).1 = RegResult.success 1 ∧
    handleRegisterFile (handleRegisterFile ⟨[], []⟩ pDup 1).2 pDup 2 =
      (RegResult.emailAlreadyRegistered, (handleRegisterFile ⟨[], []⟩ pDup 1).2) ∧
    listRegistrationsFile (handleRegisterFile ⟨[], []⟩ pDup 1).2.registrations none =
      [mkRegistration pDup 1] := by
  refine ⟨by decide, by decide, ?_⟩
  have h : (handleRegisterFile ⟨[], []⟩ pDup 1).2.registrations =
      [mkRegistration pDup 1] := by decide
  rw [h]
  simp [listRegistrationsFile]

/-- C1 amended: on the MongoDB-backed server (`src/server.js` lines
97-104) two submissions of the same validated payload (hence the same
normalized email) both succeed — the collision is only logged — and both
documents are appended, with equal stored emails; on the file-backed
server (`src/unnamed/part_000` lines 77-84) a submission whose email
exactly equals an existing record's email is instead rejected with
`Email already registered` and the state is unchanged. -/
theorem C1_amended :
    (∀ (coll : List MongoReg) (p : RegPayload) (oid1 oid2 now1 now2 : Nat),
        missingFields p = [] → interestsOverLimit p = false →
        (mongooseBoolField p.consent).isSome = true →
        ∃ r1 r2,
          handleRegisterMongo coll p oid1 now1 =
            (MongoRegResult.success oid1, coll ++ [r1]) ∧
          handleRegisterMongo (coll ++ [r1]) p oid2 now2 =
            (MongoRegResult.success oid2, coll ++ [r1, r2]) ∧
          r1.email = r2.email) ∧
    (∀ (st : ServerState) (p : RegPayload) (now : Nat),
        (∃ r, r ∈ st.registrations ∧ r.email = p.email.getD "") →
        missingFields p = [] → interestsOverLimit p = false →
        handleRegisterFile st p now = (RegResult.emailAlreadyRegistered, st)) := by
  constructor
  · intro coll p oid1 oid2 now1 now2 hmiss hint hcons
    obtain ⟨c, hc⟩ := Option.isSome_iff_exists.mp hcons
    refine ⟨mkMongoReg p oid1 now1 c, mkMongoReg p oid2 now2 c, ?_, ?_, rfl⟩
    · unfold handleRegisterMongo
      rw [hmiss, hint, hc]
      simp
    · unfold handleRegisterMongo
      rw [hmiss, hint, hc]
      simp
  · intro st p now hdup hmiss hint
    obtain ⟨r, hr, hre⟩ := hdup
    unfold handleRegisterFile
    rw [hmiss, hint]
    have hany : st.registrations.any (fun reg => reg.email == p.email.getD "") = true := by
      rw [List.any_eq_true]
      exact ⟨r, hr, by simp [hre]⟩
    rw [hany]
    simp

/-- C1 witness for the amended theorem: with one `pDup` record stored,
resubmitting `pDup` is rejected and the state is unchanged. -/
theorem C1_amended_witness :
    handleRegisterFile ⟨[mkRegistration pDup 1], []⟩ pDup 5 =
      (RegResult.emailAlreadyRegistered, ⟨[mkRegistration pDup 1], []⟩) :=
  C1_amended.2 ⟨[mkRegistration pDup 1], []⟩ pDup 5
    ⟨mkRegistration pDup 1, by decide, by decide⟩ (by decide) (by decide)

/-- C2: whenever one of the seven required fields is absent or empty,
both servers answer with the missing-field error carrying exactly the
missing fields (`required.filter(field => !req.body[field])`), and the
stored collections are unchanged. -/
theorem C2_spec :
    ∀ (st : ServerState) (coll : List MongoReg) (p : RegPayload) (now oid : Nat),
      (∃ f, f ∈ requiredFields ∧ strFieldFalsy (p.field f) = true) →
      handleRegisterFile st p now = (RegResult.missingRequired (missingFields p), st) ∧
      handleRegisterMongo coll p oid now =
        (MongoRegResult.missingRequired (missingFields p), coll) ∧
      (∀ f, f ∈ missingFields p ↔ f ∈ requiredFields ∧ strFieldFalsy (p.field f) = true) := by
  intro st coll p now oid h
  obtain ⟨f, hf, hfalsy⟩ := h
  have hmem : f ∈ missingFields p := by
    rw [missingFields, List.mem_filter]
    exact ⟨hf, hfalsy⟩
  have hpos : 0 < (missingFields p).length :=
    List.length_pos.mpr (List.ne_nil_of_mem hmem)
  refine ⟨?_, ?_, ?_⟩
  · unfold handleRegisterFile
    rw [if_pos hpos]
  · unfold handleRegisterMongo
    rw [if_pos hpos]
  · intro g
    rw [missingFields, List.mem_filter]

/-- C2 witness: the all-absent payload is rejected by both servers with
all seven field names. -/
theorem C2_spec_witness :
    handleRegisterFile ⟨[], []⟩ pAllMissing 1 =
      (RegResult.missingRequired (missingFields pAllMissing), ⟨[], []⟩) :=
  (C2_spec ⟨[], []⟩ [] pAllMissing 1 1 ⟨"firstName", by decide, by decide⟩).1

/-- C4 counterexample: the payload `fbRatingZero` has `rating` present
and equal to `0` — outside `[1,5]` — yet both servers accept it
(JavaScript `if (rating && …)` treats `0` as absent) and store the
rating as `null`, contradicting "fails with RatingOutOfRange". -/
theorem C4_counterexample :
    fbRatingZero.rating = some 0 ∧
    ¬(1 ≤ (0 : Int) ∧ (0 : Int) ≤ 5) ∧
    handleFeedbackFile ⟨[], []⟩ fbRatingZero 7 =
      (FbResult.success, ⟨[], [⟨7, "Great event", "", none, 7⟩]⟩) ∧
    handleFeedbackMongo [] fbRatingZero 7 7 =
      (FbResult.success, [⟨7, some "Great event", none, none, 7⟩]) := by
  decide

/-- C4 amended: a rating that is present, non-zero (truthy) and outside
`[1,5]` is rejected with `RatingOutOfRange` by both servers, provided at
least one feedback field is non-empty (the empty-feedback check runs
first); rating `0` is treated as absent; rating exactly `1` or `5`
together with a non-empty feedback field succeeds on both servers. -/
theorem C4_amended :
    (∀ (st : ServerState) (p : FbPayload) (now : Nat) (n : Int),
        p.rating = some n → n ≠ 0 → (n < 1 ∨ 5 < n) →
        ¬(strFieldFalsy p.feedback1 = true ∧ strFieldFalsy p.feedback2 = true) →
        handleFeedbackFile st p now = (FbResult.ratingOutOfRange, st)) ∧
    (∀ (coll : List MongoFeedback) (p : FbPayload) (oid now : Nat) (n : Int),
        p.rating = some n → n ≠ 0 → (n < 1 ∨ 5 < n) →
        ¬(strFieldFalsy p.feedback1 = true ∧ strFieldFalsy p.feedback2 = true) →
        handleFeedbackMongo coll p oid now = (FbResult.ratingOutOfRange, coll)) ∧
    (∀ (st : ServerState) (p : FbPayload) (now : Nat),
        (p.rating = some 1 ∨ p.rating = some 5) →
        ¬(strFieldFalsy p.feedback1 = true ∧ strFieldFalsy p.feedback2 = true) →
        (handleFeedbackFile st p now).1 = FbResult.success) ∧
    (∀ (coll : List MongoFeedback) (p : FbPayload) (oid now : Nat),
        (p.rating = some 1 ∨ p.rating = some 5) →
        ¬(strFieldFalsy p.feedback1 = true ∧ strFieldFalsy p.feedback2 = true) →
        (handleFeedbackMongo coll p oid now).1 = FbResult.success) := by
  have hempty : ∀ (p : FbPayload),
      ¬(strFieldFalsy p.feedback1 = true ∧ strFieldFalsy p.feedback2 = true) →
      (strFieldFalsy p.feedback1 && strFieldFalsy p.feedback2) = false := by
    intro p h
    cases h1 : strFieldFalsy p.feedback1 with
    | false => simp [h1]
    | true =>
      cases h2 : strFieldFalsy p.feedback2 with
      | false => simp [h2]
      | true => exact absurd ⟨h1, h2⟩ h
  have hrej : ∀ (r : Option Int) (n : Int), r = some n → n ≠ 0 → (n < 1 ∨ 5 < n) →
      ratingRejected r = true := by
    intro r n hr hn hout
    subst hr
    unfold ratingRejected
    simp only [Bool.and_eq_true, bne_iff_ne, ne_eq, Bool.or_eq_true, decide_eq_true_eq]
    exact ⟨hn, by omega⟩
  have hok : ∀ (r : Option Int), (r = some 1 ∨ r = some 5) →
      ratingRejected r = false := by
    intro r h
    rcases h with h | h <;> subst h <;> decide
  refine ⟨?_, ?_, ?_, ?_⟩
  · intro st p now n hr hn hout hne
    unfold handleFeedbackFile
    rw [hempty p hne, hrej p.rating n hr hn hout]
    simp
  · intro coll p oid now n hr hn hout hne
    unfold handleFeedbackMongo
    rw [hempty p hne, hrej p.rating n hr hn hout]
    simp
  · intro st p now hr hne
    unfold handleFeedbackFile
    rw [hempty p hne, hok p.rating hr]
    simp
  · intro coll p oid now hr hne
    unfold handleFeedbackMongo
    rw [hempty p hne, hok p.rating hr]
    simp

/-- C4 witness: rating `6` with non-empty feedback is rejected. -/
theorem C4_amended_witness :
    handleFeedbackFile ⟨[], []⟩ ⟨some "Great event", none, some 6⟩ 2 =
      (FbResult.ratingOutOfRange, ⟨[], []⟩) :=
  C4_amended.1 ⟨[], []⟩ ⟨some "Great event", none, some 6⟩ 2 6 rfl
    (by decide) (by decide) (by decide)

/-- C5 counterexample: the payload `fbBlankOnly` carries only whitespace
— both feedback fields are blank after trimming — yet both servers
accept it (the check `!feedback1 && !feedback2` runs before trimming) and
a record is persisted, contradicting "fails with EmptyFeedback and no
record is persisted". -/
theorem C5_counterexample :
    jsTrim "   " = "" ∧
    handleFeedbackFile ⟨[], []⟩ fbBlankOnly 3 =
      (FbResult.success, ⟨[], [⟨3, "", "", none, 3⟩]⟩) ∧
    handleFeedbackMongo [] fbBlankOnly 3 3 =
      (FbResult.success, [⟨3, some "   ", none, none, 3⟩]) := by
  decide

/-- C5 amended: when both feedback fields are absent or the *empty
string* (JavaScript falsiness — no trimming before the check), both
servers fail with `EmptyFeedback` and the stored collections are
unchanged; whitespace-only fields count as present. -/
theorem C5_amended :
    (∀ (st : ServerState) (p : FbPayload) (now : Nat),
        strFieldFalsy p.feedback1 = true → strFieldFalsy p.feedback2 = true →
        handleFeedbackFile st p now = (FbResult.emptyFeedback, st)) ∧
    (∀ (coll : List MongoFeedback) (p : FbPayload) (oid now : Nat),
        strFieldFalsy p.feedback1 = true → strFieldFalsy p.feedback2 = true →
        handleFeedbackMongo coll p oid now = (FbResult.emptyFeedback, coll)) := by
  constructor
  · intro st p now h1 h2
    unfold handleFeedbackFile
    rw [h1, h2]
    simp
  · intro coll p oid now h1 h2
    unfold handleFeedbackMongo
    rw [h1, h2]
    simp

/-- C5 witness: the payload with both fields absent is rejected. -/
theorem C5_amended_witness :
    handleFeedbackFile ⟨[], []⟩ ⟨none, none, some 4⟩ 9 =
      (FbResult.emptyFeedback, ⟨[], []⟩) :=
  C5_amended.1 ⟨[], []⟩ ⟨none, none, some 4⟩ 9 rfl rfl

/-- Filtering on `text && text.trim()` agrees with filtering on
`text.trim()` alone: an empty string trims to itself. -/
lemma blankFilterEq (t : String) : (t != "" && jsTrim t != "") = (jsTrim t != "") := by
  cases ht : (t == "") with
  | true =>
    have h : t = "" := by simpa using ht
    subst h
    decide
  | false => simp [bne, ht]

/-- The file-backed combined display text is the join of the non-blank
parts. -/
lemma displayTextEq (f : Feedback) : feedbackDisplayText f = specCombinedText f := by
  unfold feedbackDisplayText specCombinedText
  congr 1
  refine List.filter_congr ?_
  intro t _
  exact blankFilterEq t

/-- The JavaScript `a || b` fallback is non-empty whenever the default
is. -/
lemma jsStrOr_ne_empty (v : Option String) (d : String) (hd : d ≠ "") :
    jsStrOr v d ≠ "" := by
  unfold jsStrOr
  cases v with
  | none => exact hd
  | some s =>
    cases hs : (s == "") with
    | true =>
      have h : s = "" := by simpa using hs
      subst h
      simpa [bne] using hd
    | false =>
      simpa [bne, hs] using (by simpa using hs : ¬s = "")

/-- C6 counterexample: for the MongoDB-backed `listFeedbacks`
(`src/server.js` lines 220-242), a feedback with both text parts
non-empty is displayed with `text` equal to `feedback1` alone — not the
join of the non-empty parts — and the returned view drops the original
`feedback1`/`feedback2` fields entirely: two feedbacks differing in
`feedback2` produce identical views, so the original fields are not
retrievable from the result. -/
theorem C6_counterexample :
    adminFeedbacksMongo (.ok [mfBoth]) =
      (200, [{ name := "Customer Feedback", text := "Great event",
               rating := some 5, timestamp := 10, id := 1 }]) ∧
    (formatFeedbackMongo mfBoth).text ≠ specCombinedTextMongo mfBoth ∧
    formatFeedbackMongo mfBoth = formatFeedbackMongo mfBoth2 ∧
    mfBoth.feedback2 ≠ mfBoth2.feedback2 := by
  decide

/-- C6 amended: the file-backed `listFeedbacks`
(`src/unnamed/part_000` lines 218-237) satisfies the claim in full —
every returned view has `name` redacted to the fixed placeholder
`Anonymous User`, `text` equal to the join of the non-blank parts of
`feedback1` and `feedback2`, and both original fields retained; the
MongoDB-backed projection redacts the name to its own fixed placeholder
`Customer Feedback` and always carries a non-empty display text
(`feedback1 || feedback2 || 'No feedback text'`), but neither joins the
parts nor retains the original fields. -/
theorem C6_amended :
    (∀ (fbs : List Feedback) (v : FeedbackView),
        v ∈ listFeedbacksFile fbs ↔ ∃ f, f ∈ fbs ∧ v = formatFeedbackFile f) ∧
    (∀ f : Feedback, (formatFeedbackFile f).name = "Anonymous User" ∧
        (formatFeedbackFile f).feedback1 = f.feedback1 ∧
        (formatFeedbackFile f).feedback2 = f.feedback2 ∧
        (formatFeedbackFile f).text = specCombinedText f) ∧
    (∀ g : MongoFeedback, (formatFeedbackMongo g).name = "Customer Feedback" ∧
        (formatFeedbackMongo g).text ≠ "") := by
  refine ⟨?_, ?_, ?_⟩
  · intro fbs v
    simp only [listFeedbacksFile, List.mem_map, List.mem_mergeSort]
    constructor
    · rintro ⟨f, hf, rfl⟩
      exact ⟨f, hf, rfl⟩
    · rintro ⟨f, hf, rfl⟩
      exact ⟨f, hf, rfl⟩
  · intro f
    exact ⟨rfl, rfl, rfl, displayTextEq f⟩
  · intro g
    exact ⟨rfl, jsStrOr_ne_empty g.feedback1 (jsStrOr g.feedback2 "No feedback text")
      (jsStrOr_ne_empty g.feedback2 "No feedback text" (by decide))⟩

/-- C6 witness: a concrete record's view occurs in the file-backed
listing. -/
theorem C6_amended_witness :
    formatFeedbackFile ⟨1, "a", "", none, 1⟩ ∈ listFeedbacksFile [⟨1, "a", "", none, 1⟩] :=
  (C6_amended.1 [⟨1, "a", "", none, 1⟩] (formatFeedbackFile ⟨1, "a", "", none, 1⟩)).mpr
    ⟨⟨1, "a", "", none, 1⟩, List.mem_singleton.mpr rfl, rfl⟩

/-- C7 counterexample: when the awaited query throws (storage
unavailable), both admin endpoints of `src/server.js` (lines 213-216 and
238-241) do answer with an empty array body — but with HTTP status
**500**, which is an error status, contradicting "rather than an error
status". -/
theorem C7_counterexample :
    adminRegistrationsMongo (.error ()) = (500, []) ∧
    adminFeedbacksMongo (.error ()) = (500, []) ∧
    (500 : Nat) ≠ 200 := by
  decide

/-- C7 amended: on storage unavailability the admin query endpoints
return an empty result set as the response body, but keep the HTTP
error status 500 (`res.status(500).json([])`); on success they return
status 200 with the query results (feedbacks projected through the
redacting formatter). -/
theorem C7_amended :
    (∀ e : Unit, adminRegistrationsMongo (.error e) = (500, []) ∧
        adminFeedbacksMongo (.error e) = (500, [])) ∧
    (∀ rs, adminRegistrationsMongo (.ok rs) = (200, rs)) ∧
    (∀ fbs, adminFeedbacksMongo (.ok fbs) = (200, fbs.map formatFeedbackMongo)) :=
  ⟨fun _ => ⟨rfl, rfl⟩, fun _ => rfl, fun _ => rfl⟩

/-- C8 counterexample: the file-backed server (`src/unnamed/part_000`
line 98, `consent: req.body.consent || false`) stores the *raw* payload
value whenever it is truthy: submitting the valid payload `pConsentStr`,
whose `consent` is the string `"false"`, succeeds and stores the string
`"false"` — not a boolean — contradicting "the stored consent field is a
boolean". -/
theorem C8_counterexample :
    (handleRegisterFile ⟨[], []⟩ pConsentStr 1).1 = RegResult.success 1 ∧
    (handleRegisterFile ⟨[], []⟩ pConsentStr 1).2.registrations.map (fun r => r.consent) =
      [JSVal.str "false"] ∧
    JSVal.isBool (JSVal.str "false") = false := by
  decide

/-- C8 amended: the file-backed server stores `consent` as the raw
payload value when that value is truthy and as boolean `false`
otherwise (so the stored value is a boolean only when the payload sent
one, or sent something falsy); `src/routes/registration.js` lines 10-14
instead coerces strictly: the stored value is boolean `true` exactly
when the payload consent is boolean `true` or the string `'true'`, and
boolean `false` otherwise. -/
theorem C8_amended :
    (∀ (st : ServerState) (p : RegPayload) (now : Nat),
        missingFields p = [] → interestsOverLimit p = false →
        (∀ r, r ∈ st.registrations → (r.email == p.email.getD "") = false) →
        handleRegisterFile st p now =
          (RegResult.success now,
            { st with registrations := st.registrations ++ [mkRegistration p now] }) ∧
        (mkRegistration p now).consent =
          (if p.consent.truthy then p.consent else JSVal.bool false)) ∧
    (∀ c : JSVal, consentRoutes c = true ↔ (c = JSVal.bool true ∨ c = JSVal.str "true")) := by
  constructor
  · intro st p now hmiss hint hnodup
    refine ⟨?_, rfl⟩
    unfold handleRegisterFile
    rw [hmiss]
    rw [if_neg (by simp)]
    rw [hint, if_neg (by simp)]
    have hany : st.registrations.any (fun reg => reg.email == p.email.getD "") = false := by
      rw [List.any_eq_false]
      intro r hr
      simp [hnodup r hr]
    rw [hany, if_neg (by simp)]
  · intro c
    simp [consentRoutes]

/-- C8 witness: the payload with string consent `"false"` succeeds and
its record is appended. -/
theorem C8_amended_witness :
    handleRegisterFile ⟨[], []⟩ pConsentStr 1 =
      (RegResult.success 1, ⟨[mkRegistration pConsentStr 1], []⟩) :=
  (C8_amended.1 ⟨[], []⟩ pConsentStr 1 (by decide) (by decide)
    (fun r hr => absurd hr (List.not_mem_nil r))).1

/-- C9 counterexample: the router login (`src/routes/feedback.js` lines
32-40) answers the correct fixed credentials with 200 but **no token**
in the body, contradicting "returns 200 with a token exactly when the
submitted username and password equal the one fixed credential pair". -/
theorem C9_counterexample :
    adminLoginRouter "admin@mtn.ng" "1234" =
      { status := 200, success := true, token := none } := by
  decide

/-- C9 amended: for the two full servers, the fixed pair
`admin@mtn.ng` / `1234` gets 200 with the static token `demo-token` and
any other credentials get 401 with no token; the router fragment
performs the same check but returns 200 *without* a token on success. -/
theorem C9_amended :
    (∀ u p : String, u = "admin@mtn.ng" → p = "1234" →
        adminLoginMain u p = { status := 200, success := true, token := some "demo-token" } ∧
        adminLoginRouter u p = { status := 200, success := true, token := none }) ∧
    (∀ u p : String, ¬(u = "admin@mtn.ng" ∧ p = "1234") →
        adminLoginMain u p = { status := 401, success := false, token := none } ∧
        adminLoginRouter u p = { status := 401, success := false, token := none }) := by
  constructor
  · intro u p hu hp
    subst hu
    subst hp
    exact ⟨rfl, rfl⟩
  · intro u p h
    have hc : ((u == "admin@mtn.ng") && (p == "1234")) ≠ true := by
      simpa [Bool.and_eq_true, beq_iff_eq] using h
    unfold adminLoginMain adminLoginRouter
    rw [if_neg hc, if_neg hc]
    exact ⟨rfl, rfl⟩

/-- C9 witness: wrong password gets 401 and no token. -/
theorem C9_amended_witness :
    adminLoginMain "admin@mtn.ng" "wrong" =
      { status := 401, success := false, token := none } :=
  (C9_amended.2 "admin@mtn.ng" "wrong" (by simp)).1

/-- C10: a successful registration on the file-backed server appends
exactly one record to `registrations` and leaves `feedbacks` unchanged,
and a successful feedback submission appends exactly one record to
`feedbacks` and leaves `registrations` unchanged. -/
theorem C10_frame :
    (∀ (st st2 : ServerState) (p : RegPayload) (now i : Nat),
        handleRegisterFile st p now = (RegResult.success i, st2) →
        (∃ rec, st2.registrations = st.registrations ++ [rec]) ∧
        st2.feedbacks = st.feedbacks) ∧
    (∀ (st st2 : ServerState) (q : FbPayload) (now : Nat),
        handleFeedbackFile st q now = (FbResult.success, st2) →
        (∃ fb, st2.feedbacks = st.feedbacks ++ [fb]) ∧
        st2.registrations = st.registrations) := by
  constructor
  · intro st st2 p now i h
    unfold handleRegisterFile at h
    split at h
    · simp at h
    · split at h
      · simp at h
      · split at h
        · simp at h
        · rw [Prod.mk.injEq] at h
          rw [← h.2]
          exact ⟨⟨mkRegistration p now, rfl⟩, rfl⟩
  · intro st st2 q now h
    unfold handleFeedbackFile at h
    split at h
    · simp at h
    · split at h
      · simp at h
      · rw [Prod.mk.injEq] at h
        rw [← h.2]
        exact ⟨⟨mkFeedback q now, rfl⟩, rfl⟩

/-- Transitivity and totality let the stable merge sort deliver a
timestamp-descending `Pairwise` order. -/
lemma pairwiseNewestReg (l : List Registration) :
    (l.mergeSort newestFirstReg).Pairwise (fun a b => b.timestamp ≤ a.timestamp) := by
  have htrans : ∀ (a b c : Registration),
      newestFirstReg a b → newestFirstReg b c → newestFirstReg a c := by
    intro a b c hab hbc
    unfold newestFirstReg at *
    simp only [decide_eq_true_eq] at *
    omega
  have htotal : ∀ (a b : Registration), newestFirstReg a b || newestFirstReg b a := by
    intro a b
    unfold newestFirstReg
    simp only [Bool.or_eq_true, decide_eq_true_eq]
    omega
  exact (List.sorted_mergeSort htrans htotal l).imp (fun hab => by
    simpa [newestFirstReg, decide_eq_true_eq] using hab)

/-- C3 counterexample: with the single stored record `regAda`
(`firstName := "Ada"`, …) and the non-blank search term `" a"`, the
file-backed `listRegistrations` (`src/unnamed/part_000` lines 191-215)
returns the record — the code matches against the *trimmed* lower-cased
term `"a"` — although the claim's predicate (the lower-cased term `" a"`
as a substring of the four fields) does not hold of it, contradicting
"returns exactly those records where the lower-cased term is a
substring …". -/
theorem C3_counterexample :
    listRegistrationsFile [regAda] (some " a") = [regAda] ∧
    specSearchMatches " a" regAda = false ∧
    0 < (jsTrim " a").length := by
  refine ⟨?_, by decide, by decide⟩
  have h : [regAda].filter (regMatchesSearch (jsTrim (jsToLower " a"))) = [regAda] := by
    decide
  have hc : (" a" != "" && decide (0 < (jsTrim " a").length)) = true := by decide
  simp only [listRegistrationsFile, hc, if_true, h, List.mergeSort_singleton]

/-- C3 amended: with an absent or blank (whitespace-only) search term,
the file-backed `listRegistrations` returns all records; with a
non-blank term it returns exactly those records where the lower-cased,
**trimmed** term is a substring of the lower-cased `firstName`,
`lastName`, `email`, or `location` (OR across the four fields); in every
case the result is ordered by timestamp descending. -/
theorem C3_amended (regs : List Registration) (search : Option String) :
    ((search = none ∨ ∃ s, search = some s ∧ (jsTrim s).length = 0) →
        (listRegistrationsFile regs search).Perm regs) ∧
    (∀ s, search = some s → 0 < (jsTrim s).length →
        (listRegistrationsFile regs search).Perm
          (regs.filter (specSearchMatchesT s))) ∧
    (listRegistrationsFile regs search).Pairwise
      (fun a b => b.timestamp ≤ a.timestamp) := by
  refine ⟨?_, ?_, ?_⟩
  · intro h
    rcases h with rfl | ⟨s, rfl, hs⟩
    · exact List.mergeSort_perm regs newestFirstReg
    · simp only [listRegistrationsFile]
      rw [if_neg (by simp [Bool.and_eq_true, decide_eq_true_eq, hs])]
      exact List.mergeSort_perm regs newestFirstReg
  · intro s hsearch hpos
    subst hsearch
    have hne : s ≠ "" := by
      intro h
      subst h
      exact absurd hpos (by decide)
    simp only [listRegistrationsFile]
    rw [if_pos (by simp [Bool.and_eq_true, bne_iff_ne, hne, hpos])]
    have hfilter : regs.filter (regMatchesSearch (jsTrim (jsToLower s))) =
        regs.filter (specSearchMatchesT s) := rfl
    rw [hfilter]
    exact List.mergeSort_perm _ _
  · cases search with
    | none => exact pairwiseNewestReg regs
    | some s => exact pairwiseNewestReg _

/-- C3 witness: the amended membership characterization at the concrete
store `[regAda]` and term `" a"`. -/
theorem C3_amended_witness :
    (listRegistrationsFile [regAda] (some " a")).Perm
      ([regAda].filter (specSearchMatchesT " a")) :=
  (C3_amended [regAda] (some " a")).2.1 " a" rfl (by decide)

/-- C10 witness: registering `pDup` on the empty state touches only the
registrations list. -/
theorem C10_frame_witness :
    (∃ rec, stAfter.registrations = ([] : List Registration) ++ [rec]) ∧
    stAfter.feedbacks = ([] : List Feedback) :=
  C10_frame.1 ⟨[], []⟩ stAfter pDup 1 1 (by decide)

